import Mathlib

/-!
Verification of the VOLTTRON Market Service Agent phase coordinator
(services/core/MarketServiceAgent/market_service/agent.py).

The agent owns a four-phase cyclic state machine driven by timer callbacks,
and gates remote reservation/offer calls on the current phase.  Phases and
triggers are the string constants of the source.  Collaborators that are not
part of the agent module (the transitions Machine library, MarketList,
Director, PolyLineFactory, the pubsub bus and timestamp formatting) are
modelled from the specification where noted; everything else is translated
directly from agent.py.
-/

namespace MarketService

/-- Phase constant, agent.py line 121. -/
def INITIAL_WAIT : String := "service_initial_wait"

/-- Phase constant, agent.py line 122. -/
def COLLECT_RESERVATIONS : String := "service_collect_reservations"

/-- Phase constant, agent.py line 123. -/
def COLLECT_OFFERS : String := "service_collect_offers"

/-- Phase constant, agent.py line 124. -/
def NO_MARKETS : String := "service_has_no_markets"

/-- The four declared states, agent.py line 154. -/
def states : List String :=
  [INITIAL_WAIT, COLLECT_RESERVATIONS, COLLECT_OFFERS, NO_MARKETS]

/-- One edge of the transition table: a trigger name, a source phase and a
destination phase. -/
structure Transition where
  trigger : String
  source : String
  dest : String
deriving Repr, DecidableEq

/-- The five-edge transition table, agent.py lines 155-161, in source order. -/
def transitionTable : List Transition :=
  [⟨"start_reservations", INITIAL_WAIT, COLLECT_RESERVATIONS⟩,
   ⟨"start_offers_no_markets", COLLECT_RESERVATIONS, NO_MARKETS⟩,
   ⟨"start_offers_has_markets", COLLECT_RESERVATIONS, COLLECT_OFFERS⟩,
   ⟨"start_reservations", COLLECT_OFFERS, COLLECT_RESERVATIONS⟩,
   ⟨"start_reservations", NO_MARKETS, COLLECT_RESERVATIONS⟩]

/-- Modelled from the spec: the transitions Machine library consuming the
table at agent.py lines 172-173 is an external dependency, not in the
repository.  Per the spec, fire applies the transition matching
(trigger, currentPhase), returns whether a transition occurred, and an
unmatched trigger is a failing no-op that preserves the state and never
raises. -/
def fire (trigger : String) (phase : String) : Bool × String :=
  match transitionTable.find? (fun e => e.trigger == trigger && e.source == phase) with
  | some e => (true, e.dest)
  | none => (false, phase)

/-- Running a sequence of triggers from a phase, folding fire left to right. -/
def runTriggers (phase : String) (triggers : List String) : String :=
  triggers.foldl (fun p t => (fire t p).2) phase

/-- The (role, requesterIdentity) pair built at agent.py lines 219 and 238.
The market_participant module is not in src; per the spec a MarketParticipant
is exactly this pair, owned by the registry after intake. -/
structure MarketParticipant where
  buyer_seller : String
  identity : String
deriving Repr, DecidableEq

/-- Modelled from the spec: one named market of the registry (market_list.py
is not in src).  A market is unformed when fewer than two distinct
participant roles are reserved in the current cycle. -/
structure Market where
  market_name : String
  reserved_roles : List String
deriving Repr, DecidableEq

/-- Modelled from the spec: a market has formed when at least two distinct
participant roles are reserved. -/
def has_market_formed (m : Market) : Bool :=
  decide (2 ≤ m.reserved_roles.dedup.length)

/-- Modelled from the spec: the registry (MarketList) owns the set of named
markets; market_list.py is not in src. -/
structure MarketList where
  markets : List Market
deriving Repr, DecidableEq

/-- Modelled from the spec: MarketRegistry.unformedMarketNames, the ordered
sequence of names of markets with fewer than two distinct roles reserved. -/
def unformed_market_list (ml : MarketList) : List String :=
  (ml.markets.filter (fun m => !has_market_formed m)).map Market.market_name

/-- Modelled from the spec: MarketRegistry.marketCount. -/
def market_count (ml : MarketList) : Nat :=
  ml.markets.length

/-- MarketServiceAgent.has_any_markets, agent.py lines 246-248: the number of
unformed markets is strictly below the total market count. -/
def has_any_markets (ml : MarketList) : Bool :=
  decide ((unformed_market_list ml).length < market_count ml)

/-- A raw value inside an offer tuple as received over RPC: a number or a
string (the malformed case of spec scenario C). -/
inductive RawVal where
  | num (n : Int)
  | str (s : String)
deriving Repr, DecidableEq

/-- Modelled from the spec: parsing one raw (price, quantity) pair; both
components must be numbers. -/
def parse_point : RawVal × RawVal → Option (Int × Int)
  | (RawVal.num p, RawVal.num q) => some (p, q)
  | _ => none

/-- Modelled from the spec: PolyLineFactory.fromTupples (agent.py line 239)
is not in src.  Per the spec, CurveParser.parse builds a curve from the raw
pairs and fails with MalformedCurve on invalid input; no partly built curve
is produced. -/
def fromTupples (raw : List (RawVal × RawVal)) : Option (List (Int × Int)) :=
  raw.mapM parse_point

/-- A call into the registry, recorded in source order.  The registry
internals are out of scope; what the agent forwards is what the claims
inspect. -/
inductive RegistryCall where
  | makeReservation (market_name : String) (participant : MarketParticipant)
  | makeOffer (market_name : String) (participant : MarketParticipant)
      (curve : List (Int × Int))
  | sendMarketFailureErrors
  | clearReservations
  | collectOffers
deriving Repr, DecidableEq

/-- Modelled from the spec: the broadcast topic of the reservation-window
notice (volttron.platform.messaging.topics is not in src). -/
def MARKET_RESERVE : String := "market_reserve"

/-- Modelled from the spec: the broadcast topic of the offer-window notice. -/
def MARKET_BID : String := "market_bid"

/-- Modelled from the spec: utils.format_timestamp is not in src; a fixed
rendering of the timestamp. -/
def format_timestamp (timestamp : Nat) : String :=
  toString timestamp

/-- A broadcast payload: the reservation notice carries one formatted
timestamp; the offer notice carries the formatted timestamp and the ordered
unformed market names. -/
inductive Payload where
  | timestampOnly (ts : String)
  | timestampAndMarkets (ts : String) (unformed : List String)
deriving Repr, DecidableEq

/-- One observable effect of the agent, recorded in source order: a trigger
fired on the state machine (with whether a transition occurred), a registry
call, or a pubsub broadcast. -/
inductive Event where
  | fired (trigger : String) (ok : Bool)
  | registry (call : RegistryCall)
  | published (topic : String) (payload : Payload)
deriving Repr, DecidableEq

/-- The Director holds the cycle configuration, agent.py line 176;
director.py itself is not in src. -/
structure Director where
  market_period : Int
  reservation_delay : Int
  offer_delay : Int
deriving Repr, DecidableEq

/-- The mutable state of a MarketServiceAgent: the Machine-managed phase
(self.state), the registry snapshot it reads, the Director, and the trace of
effects it has emitted. -/
structure AgentState where
  state : String
  market_list : MarketList
  director : Director
  events : List Event
deriving Repr, DecidableEq

/-- The outcome of a remote call as seen by that caller: a normal return, a
RuntimeError raised with a message (agent.py lines 224 and 244), or the
MalformedCurve failure of the curve parser. -/
inductive CallResult where
  | ok
  | raised (msg : String)
  | malformedCurve
deriving Repr, DecidableEq

/-- MarketServiceAgent.send_collect_reservations_request, agent.py lines
183-190: fire start_reservations, have the registry send market failure
errors then clear reservations, then publish the reservation notice carrying
the formatted timestamp on MARKET_RESERVE. -/
def send_collect_reservations_request (s : AgentState) (timestamp : Nat) :
    AgentState :=
  let f := fire "start_reservations" s.state
  { s with
    state := f.2,
    events := s.events ++
      [Event.fired "start_reservations" f.1,
       Event.registry RegistryCall.sendMarketFailureErrors,
       Event.registry RegistryCall.clearReservations,
       Event.published MARKET_RESERVE
         (Payload.timestampOnly (format_timestamp timestamp))] }

/-- MarketServiceAgent.begin_collect_offers, agent.py lines 198-205: fire
start_offers_has_markets, have the registry collect offers, then publish the
offer notice carrying the formatted timestamp and the unformed market names
on MARKET_BID. -/
def begin_collect_offers (s : AgentState) (timestamp : Nat) : AgentState :=
  let f := fire "start_offers_has_markets" s.state
  { s with
    state := f.2,
    events := s.events ++
      [Event.fired "start_offers_has_markets" f.1,
       Event.registry RegistryCall.collectOffers,
       Event.published MARKET_BID
         (Payload.timestampAndMarkets (format_timestamp timestamp)
           (unformed_market_list s.market_list))] }

/-- MarketServiceAgent.send_collect_offers_request, agent.py lines 192-196:
when some market formed, begin collecting offers; otherwise only fire
start_offers_no_markets. -/
def send_collect_offers_request (s : AgentState) (timestamp : Nat) :
    AgentState :=
  if has_any_markets s.market_list then
    begin_collect_offers s timestamp
  else
    let f := fire "start_offers_no_markets" s.state
    { s with
      state := f.2,
      events := s.events ++ [Event.fired "start_offers_no_markets" f.1] }

/-- MarketServiceAgent.make_reservation together with accept_reservation and
reject_reservation, agent.py lines 207-224: when the phase is
COLLECT_RESERVATIONS, build a MarketParticipant from the role and the caller
identity and forward it to the registry reservation intake for the named
market; otherwise raise the RuntimeError of line 224. -/
def make_reservation (s : AgentState)
    (market_name buyer_seller identity : String) : CallResult × AgentState :=
  if s.state == COLLECT_RESERVATIONS then
    let participant : MarketParticipant := ⟨buyer_seller, identity⟩
    (CallResult.ok,
     { s with events := s.events ++
         [Event.registry (RegistryCall.makeReservation market_name participant)] })
  else
    (CallResult.raised
      "Error: Market service not accepting reservations at this time.", s)

/-- MarketServiceAgent.make_offer together with accept_offer and
reject_offer, agent.py lines 226-244: when the phase is COLLECT_OFFERS,
build the participant, parse the raw curve (a parse failure propagates to
the caller before any registry call), and forward (participant, curve) to
the registry offer intake; otherwise raise the RuntimeError of line 244. -/
def make_offer (s : AgentState) (market_name buyer_seller identity : String)
    (offer : List (RawVal × RawVal)) : CallResult × AgentState :=
  if s.state == COLLECT_OFFERS then
    let participant : MarketParticipant := ⟨buyer_seller, identity⟩
    match fromTupples offer with
    | some curve =>
      (CallResult.ok,
       { s with events := s.events ++
           [Event.registry (RegistryCall.makeOffer market_name participant curve)] })
    | none => (CallResult.malformedCurve, s)
  else
    (CallResult.raised
      "Error: Market service not accepting offers at this time.", s)

/-- The configuration surface of market_service_agent, agent.py lines
145-148, each key optional with the source defaults 300, 0 and 120. -/
structure AgentConfig where
  market_period : Option Int
  reservation_delay : Option Int
  offer_delay : Option Int
deriving Repr, DecidableEq

/-- The startup failure taxonomy entry for an invalid CycleConfig. -/
inductive StartupError where
  | schedulerMisconfiguration
deriving Repr, DecidableEq

/-- Modelled from the spec: the Director constructor (director.py is not in
src) enforces the CycleConfig constraint offerDelay < marketPeriod;
SchedulerMisconfiguration is fatal at startup. -/
def Director.make (market_period reservation_delay offer_delay : Int) :
    Except StartupError Director :=
  if offer_delay < market_period then
    Except.ok ⟨market_period, reservation_delay, offer_delay⟩
  else
    Except.error StartupError.schedulerMisconfiguration

/-- The market_service_agent factory (agent.py lines 126-150) composed with
MarketServiceAgent init (lines 163-176): read each setting with its default
and construct the agent in INITIAL_WAIT with its Director; a Director
construction failure aborts startup. -/
def market_service_agent (config : AgentConfig) :
    Except StartupError AgentState := do
  let market_period := config.market_period.getD 300
  let reservation_delay := config.reservation_delay.getD 0
  let offer_delay := config.offer_delay.getD 120
  let director ← Director.make market_period reservation_delay offer_delay
  Except.ok
    { state := INITIAL_WAIT,
      market_list := ⟨[]⟩,
      director := director,
      events := [] }

/-! Helper lemmas shared by the claim theorems. -/

/-- The edge taken by a fire, when any, is an edge of the table. -/
theorem fire_dest_cases (trigger phase : String) :
    (fire trigger phase).2 = phase ∨
      (fire trigger phase).2 ∈ [COLLECT_RESERVATIONS, COLLECT_OFFERS, NO_MARKETS] := by
  unfold fire
  rcases h : transitionTable.find?
      (fun e => e.trigger == trigger && e.source == phase) with _ | e
  · left
    simp only [h]
  · right
    simp only [h]
    have he : e ∈ transitionTable := List.mem_of_find?_eq_some h
    fin_cases he <;> simp [COLLECT_RESERVATIONS, COLLECT_OFFERS, NO_MARKETS]

/-- Firing never moves into a state outside the declared four. -/
theorem fire_mem_states (trigger phase : String) (hp : phase ∈ states) :
    (fire trigger phase).2 ∈ states := by
  rcases fire_dest_cases trigger phase with h | h
  · rwa [h]
  · rw [states]
    simp only [List.mem_cons, List.mem_singleton] at h ⊢
    tauto

/-- Firing never moves into INITIAL_WAIT from another state. -/
theorem fire_ne_initial_wait (trigger phase : String)
    (hp : phase ≠ INITIAL_WAIT) : (fire trigger phase).2 ≠ INITIAL_WAIT := by
  rcases fire_dest_cases trigger phase with h | h
  · rwa [h]
  · intro hc
    rw [hc] at h
    revert h
    decide

/-- Unfolding one step of runTriggers. -/
theorem runTriggers_cons (phase trigger : String) (triggers : List String) :
    runTriggers phase (trigger :: triggers) =
      runTriggers (fire trigger phase).2 triggers := rfl

/-- Splitting runTriggers over an appended sequence. -/
theorem runTriggers_append (phase : String) (ts more : List String) :
    runTriggers phase (ts ++ more) = runTriggers (runTriggers phase ts) more := by
  simp [runTriggers, List.foldl_append]

/-- Any trigger sequence from a declared state stays in the declared states. -/
theorem runTriggers_mem_states (ts : List String) (phase : String)
    (hp : phase ∈ states) : runTriggers phase ts ∈ states := by
  induction ts generalizing phase with
  | nil => exact hp
  | cons t ts ih =>
    rw [runTriggers_cons]
    exact ih _ (fire_mem_states t phase hp)

/-- Once the state differs from INITIAL_WAIT, it differs forever. -/
theorem runTriggers_ne_initial_wait (ts : List String) (phase : String)
    (hp : phase ≠ INITIAL_WAIT) : runTriggers phase ts ≠ INITIAL_WAIT := by
  induction ts generalizing phase with
  | nil => exact hp
  | cons t ts ih =>
    rw [runTriggers_cons]
    exact ih _ (fire_ne_initial_wait t phase hp)

/-- The count comparison of has_any_markets coincides, in this registry
model, with the existence of a formed market. -/
theorem has_any_markets_iff (ml : MarketList) :
    has_any_markets ml = true ↔
      ∃ m ∈ ml.markets, has_market_formed m = true := by
  rw [has_any_markets, decide_eq_true_eq, unformed_market_list, market_count,
    List.length_map]
  constructor
  · intro hlt
    by_contra hnone
    push_neg at hnone
    have hall : ∀ m ∈ ml.markets, (!has_market_formed m) = true := by
      intro m hm
      simp [hnone m hm]
    exact absurd (List.filter_length_eq_length.mpr hall) (Nat.ne_of_lt hlt)
  · intro hex
    rcases hex with ⟨m, hm, hformed⟩
    apply Nat.lt_of_le_of_ne
      (List.length_filter_le (fun m => !has_market_formed m) ml.markets)
    intro heq
    have := List.filter_length_eq_length.mp heq m hm
    rw [hformed] at this
    exact absurd this (by decide)

/-- Evaluation of the two offer-window triggers from COLLECT_RESERVATIONS. -/
theorem fire_offers_no_markets_eval :
    fire "start_offers_no_markets" COLLECT_RESERVATIONS = (true, NO_MARKETS) := rfl

/-- Evaluation of the has-markets trigger from COLLECT_RESERVATIONS. -/
theorem fire_offers_has_markets_eval :
    fire "start_offers_has_markets" COLLECT_RESERVATIONS = (true, COLLECT_OFFERS) := rfl

/-! Claim theorems. -/

/-- C1: make_reservation accepts a request iff the current phase is
COLLECT_RESERVATIONS; on accept the MarketParticipant built from the caller
role and identity is forwarded to the registry reservation intake for the
named market, and on reject the caller receives the RuntimeError signaling
that the market service is not accepting reservations at this time, with the
agent state untouched. -/
theorem make_reservation_admission (s : AgentState)
    (market_name buyer_seller identity : String) :
    ((make_reservation s market_name buyer_seller identity).1 = CallResult.ok ↔
      s.state = COLLECT_RESERVATIONS) ∧
    (s.state = COLLECT_RESERVATIONS →
      (make_reservation s market_name buyer_seller identity).2 =
        { s with events := s.events ++
            [Event.registry (RegistryCall.makeReservation market_name
              ⟨buyer_seller, identity⟩)] }) ∧
    (s.state ≠ COLLECT_RESERVATIONS →
      (make_reservation s market_name buyer_seller identity).1 =
        CallResult.raised
          "Error: Market service not accepting reservations at this time." ∧
      (make_reservation s market_name buyer_seller identity).2 = s) := by
  by_cases h : s.state = COLLECT_RESERVATIONS <;>
    simp [make_reservation, h]

/-- Witness for C1 at two concrete agent states, one in each phase class. -/
theorem make_reservation_admission_witness :
    (make_reservation ⟨COLLECT_RESERVATIONS, ⟨[]⟩, ⟨300, 0, 120⟩, []⟩
        "M1" "BUYER" "agent1").1 = CallResult.ok ∧
    (make_reservation ⟨INITIAL_WAIT, ⟨[]⟩, ⟨300, 0, 120⟩, []⟩
        "M1" "BUYER" "agent1").1 =
      CallResult.raised
        "Error: Market service not accepting reservations at this time." := by
  have h1 := make_reservation_admission
    ⟨COLLECT_RESERVATIONS, ⟨[]⟩, ⟨300, 0, 120⟩, []⟩ "M1" "BUYER" "agent1"
  have h2 := make_reservation_admission
    ⟨INITIAL_WAIT, ⟨[]⟩, ⟨300, 0, 120⟩, []⟩ "M1" "BUYER" "agent1"
  exact ⟨h1.1.mpr rfl, (h2.2.2 (by decide)).1⟩

/-- C2: for a raw curve that parses, make_offer accepts iff the current
phase is COLLECT_OFFERS; on accept the parsed curve is forwarded with the
participant to the registry offer intake, and on reject the caller receives
the RuntimeError signaling that the market service is not accepting offers
at this time, with the agent state untouched. -/
theorem make_offer_admission (s : AgentState)
    (market_name buyer_seller identity : String)
    (offer : List (RawVal × RawVal)) (curve : List (Int × Int))
    (hparse : fromTupples offer = some curve) :
    ((make_offer s market_name buyer_seller identity offer).1 = CallResult.ok ↔
      s.state = COLLECT_OFFERS) ∧
    (s.state = COLLECT_OFFERS →
      (make_offer s market_name buyer_seller identity offer).2 =
        { s with events := s.events ++
            [Event.registry (RegistryCall.makeOffer market_name
              ⟨buyer_seller, identity⟩ curve)] }) ∧
    (s.state ≠ COLLECT_OFFERS →
      (make_offer s market_name buyer_seller identity offer).1 =
        CallResult.raised
          "Error: Market service not accepting offers at this time." ∧
      (make_offer s market_name buyer_seller identity offer).2 = s) := by
  by_cases h : s.state = COLLECT_OFFERS <;>
    simp [make_offer, h, hparse]

/-- Witness for C2 with the curve of spec scenario C at two concrete agent
states. -/
theorem make_offer_admission_witness :
    (make_offer ⟨COLLECT_OFFERS, ⟨[]⟩, ⟨300, 0, 120⟩, []⟩ "M1" "BUYER" "agent1"
        [(RawVal.num 10, RawVal.num 5), (RawVal.num 12, RawVal.num 3)]).1 =
      CallResult.ok ∧
    (make_offer ⟨COLLECT_RESERVATIONS, ⟨[]⟩, ⟨300, 0, 120⟩, []⟩ "M1" "BUYER"
        "agent1"
        [(RawVal.num 10, RawVal.num 5), (RawVal.num 12, RawVal.num 3)]).1 =
      CallResult.raised
        "Error: Market service not accepting offers at this time." := by
  have h1 := make_offer_admission ⟨COLLECT_OFFERS, ⟨[]⟩, ⟨300, 0, 120⟩, []⟩
    "M1" "BUYER" "agent1"
    [(RawVal.num 10, RawVal.num 5), (RawVal.num 12, RawVal.num 3)]
    [(10, 5), (12, 3)] rfl
  have h2 := make_offer_admission
    ⟨COLLECT_RESERVATIONS, ⟨[]⟩, ⟨300, 0, 120⟩, []⟩ "M1" "BUYER" "agent1"
    [(RawVal.num 10, RawVal.num 5), (RawVal.num 12, RawVal.num 3)]
    [(10, 5), (12, 3)] rfl
  exact ⟨h1.1.mpr rfl, (h2.2.2 (by decide)).1⟩

/-- C9: a malformed raw curve submitted during COLLECT_OFFERS fails with
MalformedCurve, which is distinct from the phase-rejection RuntimeError;
nothing reaches the registry, the agent state is untouched, and the phase
remains COLLECT_OFFERS. -/
theorem make_offer_malformed_curve (s : AgentState)
    (market_name buyer_seller identity : String)
    (offer : List (RawVal × RawVal))
    (hs : s.state = COLLECT_OFFERS) (hbad : fromTupples offer = none) :
    (make_offer s market_name buyer_seller identity offer).1 =
      CallResult.malformedCurve ∧
    (make_offer s market_name buyer_seller identity offer).1 ≠
      CallResult.raised
        "Error: Market service not accepting offers at this time." ∧
    (make_offer s market_name buyer_seller identity offer).2 = s ∧
    (make_offer s market_name buyer_seller identity offer).2.state =
      COLLECT_OFFERS := by
  simp [make_offer, hs, hbad]

/-- Witness for C9 with the malformed curve of spec scenario C. -/
theorem make_offer_malformed_curve_witness :
    (make_offer ⟨COLLECT_OFFERS, ⟨[]⟩, ⟨300, 0, 120⟩, []⟩ "M1" "BUYER" "agent1"
        [(RawVal.str "x", RawVal.str "y")]).1 = CallResult.malformedCurve ∧
    (make_offer ⟨COLLECT_OFFERS, ⟨[]⟩, ⟨300, 0, 120⟩, []⟩ "M1" "BUYER" "agent1"
        [(RawVal.str "x", RawVal.str "y")]).2.state = COLLECT_OFFERS := by
  have h := make_offer_malformed_curve
    ⟨COLLECT_OFFERS, ⟨[]⟩, ⟨300, 0, 120⟩, []⟩ "M1" "BUYER" "agent1"
    [(RawVal.str "x", RawVal.str "y")] rfl rfl
  exact ⟨h.1, h.2.2.2⟩

/-- C10: neither make_reservation nor make_offer ever changes the current
phase, in any phase, on the accept path and on the reject path alike. -/
theorem admission_calls_preserve_phase (s : AgentState)
    (market_name buyer_seller identity : String)
    (offer : List (RawVal × RawVal)) :
    (make_reservation s market_name buyer_seller identity).2.state = s.state ∧
    (make_offer s market_name buyer_seller identity offer).2.state =
      s.state := by
  refine ⟨?_, ?_⟩
  · unfold make_reservation
    split <;> simp
  · unfold make_offer
    split
    · rcases h : fromTupples offer with _ | c <;> simp [h]
    · simp

/-- C3: firing any trigger that has no matching edge from the current phase
in the five-edge transition table is a no-op that reports failure and leaves
the phase unchanged (and, as a total function, can never raise). -/
theorem fire_without_edge_is_noop (trigger phase : String)
    (h : ∀ e ∈ transitionTable, ¬(e.trigger = trigger ∧ e.source = phase)) :
    fire trigger phase = (false, phase) := by
  unfold fire
  have hn : transitionTable.find?
      (fun e => e.trigger == trigger && e.source == phase) = none := by
    rw [List.find?_eq_none]
    intro e he
    simpa [Bool.and_eq_true] using h e he
  simp only [hn]

/-- Witness for C3: the offer-window trigger fired from INITIAL_WAIT. -/
theorem fire_without_edge_is_noop_witness :
    fire "start_offers_no_markets" INITIAL_WAIT = (false, INITIAL_WAIT) :=
  fire_without_edge_is_noop "start_offers_no_markets" INITIAL_WAIT (by decide)

/-- C5: has_any_markets is exactly the count comparison of the source, the
number of unformed markets strictly below the total market count; in this
registry model that comparison coincides with there being at least one
market with two or more distinct participant roles reserved. -/
theorem has_any_markets_count_comparison (ml : MarketList) :
    (has_any_markets ml = true ↔
      (unformed_market_list ml).length < market_count ml) ∧
    (has_any_markets ml = true ↔
      ∃ m ∈ ml.markets, has_market_formed m = true) := by
  constructor
  · rw [has_any_markets, decide_eq_true_eq]
  · exact has_any_markets_iff ml

/-- C6: every trigger sequence from INITIAL_WAIT keeps the phase among the
four declared phases, and once the phase has left INITIAL_WAIT no further
sequence of triggers ever re-enters it. -/
theorem phase_always_declared_and_initial_wait_once (ts : List String) :
    runTriggers INITIAL_WAIT ts ∈ states ∧
    (∀ more : List String, runTriggers INITIAL_WAIT ts ≠ INITIAL_WAIT →
      runTriggers INITIAL_WAIT (ts ++ more) ≠ INITIAL_WAIT) := by
  constructor
  · exact runTriggers_mem_states ts INITIAL_WAIT (by simp [states])
  · intro more h
    rw [runTriggers_append]
    exact runTriggers_ne_initial_wait more _ h

/-- Witness for C6 on a concrete trigger sequence leaving INITIAL_WAIT. -/
theorem phase_always_declared_and_initial_wait_once_witness :
    runTriggers INITIAL_WAIT ["start_reservations"] ∈ states ∧
    runTriggers INITIAL_WAIT
      (["start_reservations"] ++
        ["start_offers_no_markets", "start_reservations"]) ≠ INITIAL_WAIT := by
  have h := phase_always_declared_and_initial_wait_once ["start_reservations"]
  exact ⟨h.1, h.2 ["start_offers_no_markets", "start_reservations"] (by decide)⟩

/-- C4: from the reservation phase, send_collect_offers_request leaves the
phase NO_MARKETS iff no market had formed at call time, and in that case the
only effect is the failed-window trigger, with no registry call and no
broadcast; otherwise the phase becomes COLLECT_OFFERS, the registry is told
to collect offers, and the offer notice carrying the formatted timestamp and
the ordered unformed market names is broadcast. -/
theorem send_collect_offers_request_outcome (s : AgentState) (timestamp : Nat)
    (hs : s.state = COLLECT_RESERVATIONS) :
    ((send_collect_offers_request s timestamp).state = NO_MARKETS ↔
      ¬∃ m ∈ s.market_list.markets, has_market_formed m = true) ∧
    (has_any_markets s.market_list = false →
      (send_collect_offers_request s timestamp).state = NO_MARKETS ∧
      (send_collect_offers_request s timestamp).events =
        s.events ++ [Event.fired "start_offers_no_markets" true]) ∧
    (has_any_markets s.market_list = true →
      (send_collect_offers_request s timestamp).state = COLLECT_OFFERS ∧
      (send_collect_offers_request s timestamp).events =
        s.events ++
          [Event.fired "start_offers_has_markets" true,
           Event.registry RegistryCall.collectOffers,
           Event.published MARKET_BID
             (Payload.timestampAndMarkets (format_timestamp timestamp)
               (unformed_market_list s.market_list))]) := by
  by_cases h : has_any_markets s.market_list = true
  · have hex := (has_any_markets_iff s.market_list).mp h
    have hstate : (send_collect_offers_request s timestamp).state =
        COLLECT_OFFERS := by
      rw [send_collect_offers_request, if_pos h]
      show (fire "start_offers_has_markets" s.state).2 = COLLECT_OFFERS
      rw [hs]
      decide
    have hevents : (send_collect_offers_request s timestamp).events =
        s.events ++
          [Event.fired "start_offers_has_markets" true,
           Event.registry RegistryCall.collectOffers,
           Event.published MARKET_BID
             (Payload.timestampAndMarkets (format_timestamp timestamp)
               (unformed_market_list s.market_list))] := by
      rw [send_collect_offers_request, if_pos h]
      show s.events ++
          [Event.fired "start_offers_has_markets"
            (fire "start_offers_has_markets" s.state).1,
           Event.registry RegistryCall.collectOffers,
           Event.published MARKET_BID
             (Payload.timestampAndMarkets (format_timestamp timestamp)
               (unformed_market_list s.market_list))] = _
      rw [hs, fire_offers_has_markets_eval]
    refine ⟨?_, ?_, ?_⟩
    · rw [hstate]
      constructor
      · intro hco
        exact absurd hco (by decide)
      · intro hno
        exact absurd hex hno
    · intro hfalse
      rw [h] at hfalse
      exact absurd hfalse (by decide)
    · intro _
      exact ⟨hstate, hevents⟩
  · have hnone : ¬∃ m ∈ s.market_list.markets, has_market_formed m = true :=
      fun hex => h ((has_any_markets_iff s.market_list).mpr hex)
    have hstate : (send_collect_offers_request s timestamp).state =
        NO_MARKETS := by
      rw [send_collect_offers_request, if_neg h]
      show (fire "start_offers_no_markets" s.state).2 = NO_MARKETS
      rw [hs]
      decide
    have hevents : (send_collect_offers_request s timestamp).events =
        s.events ++ [Event.fired "start_offers_no_markets" true] := by
      rw [send_collect_offers_request, if_neg h]
      show s.events ++
          [Event.fired "start_offers_no_markets"
            (fire "start_offers_no_markets" s.state).1] = _
      rw [hs, fire_offers_no_markets_eval]
    refine ⟨?_, ?_, ?_⟩
    · rw [hstate]
      exact ⟨fun _ => hnone, fun _ => rfl⟩
    · intro _
      exact ⟨hstate, hevents⟩
    · intro htrue
      exact absurd htrue h

/-- Witness for C4 on the markets of spec scenarios B and C. -/
theorem send_collect_offers_request_outcome_witness :
    (send_collect_offers_request
        ⟨COLLECT_RESERVATIONS, ⟨[⟨"M1", ["BUYER", "SELLER"]⟩]⟩,
          ⟨300, 0, 120⟩, []⟩ 120).state = COLLECT_OFFERS ∧
    (send_collect_offers_request
        ⟨COLLECT_RESERVATIONS, ⟨[⟨"M1", ["BUYER"]⟩]⟩,
          ⟨300, 0, 120⟩, []⟩ 120).state = NO_MARKETS := by
  have h1 := send_collect_offers_request_outcome
    ⟨COLLECT_RESERVATIONS, ⟨[⟨"M1", ["BUYER", "SELLER"]⟩]⟩, ⟨300, 0, 120⟩, []⟩
    120 rfl
  have h2 := send_collect_offers_request_outcome
    ⟨COLLECT_RESERVATIONS, ⟨[⟨"M1", ["BUYER"]⟩]⟩, ⟨300, 0, 120⟩, []⟩ 120 rfl
  exact ⟨(h1.2.2 (by decide)).1, (h2.2.1 (by decide)).1⟩

/-- C7 counterexample: called with the phase already COLLECT_RESERVATIONS,
the StartReservations trigger recorded by send_collect_reservations_request
fails (the table has no such edge), refuting that it succeeds from every one
of the four phases. -/
theorem send_collect_reservations_fails_from_collect_reservations :
    (send_collect_reservations_request
        ⟨COLLECT_RESERVATIONS, ⟨[]⟩, ⟨300, 0, 120⟩, []⟩ 0).events =
      [Event.fired "start_reservations" false,
       Event.registry RegistryCall.sendMarketFailureErrors,
       Event.registry RegistryCall.clearReservations,
       Event.published MARKET_RESERVE
         (Payload.timestampOnly (format_timestamp 0))] ∧
    (send_collect_reservations_request
        ⟨COLLECT_RESERVATIONS, ⟨[]⟩, ⟨300, 0, 120⟩, []⟩ 0).state =
      COLLECT_RESERVATIONS := ⟨rfl, rfl⟩

/-- C7 amended: send_collect_reservations_request performs its steps in
source order — the StartReservations fire first, then the registry market
failure report, then the reservation clearing, and finally the reservation
notice broadcast carrying the formatted timestamp; the fire succeeds from
INITIAL_WAIT, COLLECT_OFFERS and NO_MARKETS, while from COLLECT_RESERVATIONS
it fails and leaves the phase unchanged. -/
theorem send_collect_reservations_request_order (s : AgentState)
    (timestamp : Nat) :
    (send_collect_reservations_request s timestamp).events =
      s.events ++
        [Event.fired "start_reservations" (fire "start_reservations" s.state).1,
         Event.registry RegistryCall.sendMarketFailureErrors,
         Event.registry RegistryCall.clearReservations,
         Event.published MARKET_RESERVE
           (Payload.timestampOnly (format_timestamp timestamp))] ∧
    (send_collect_reservations_request s timestamp).state =
      (fire "start_reservations" s.state).2 ∧
    (s.state = INITIAL_WAIT ∨ s.state = COLLECT_OFFERS ∨ s.state = NO_MARKETS →
      fire "start_reservations" s.state = (true, COLLECT_RESERVATIONS)) ∧
    (s.state = COLLECT_RESERVATIONS →
      fire "start_reservations" s.state = (false, COLLECT_RESERVATIONS)) := by
  refine ⟨rfl, rfl, ?_, ?_⟩
  · rintro (h | h | h) <;> rw [h] <;> decide
  · intro h
    rw [h]
    decide

/-- Witness for C7 (amended) from the NO_MARKETS phase. -/
theorem send_collect_reservations_request_order_witness :
    fire "start_reservations" NO_MARKETS = (true, COLLECT_RESERVATIONS) ∧
    (send_collect_reservations_request
        ⟨NO_MARKETS, ⟨[]⟩, ⟨300, 0, 120⟩, []⟩ 0).state =
      COLLECT_RESERVATIONS := by
  have h := send_collect_reservations_request_order
    ⟨NO_MARKETS, ⟨[]⟩, ⟨300, 0, 120⟩, []⟩ 0
  have hf := h.2.2.1 (Or.inr (Or.inr rfl))
  exact ⟨hf, by rw [h.2.1, hf]⟩

/-- C8: startup enforces offerDelay < marketPeriod — any configuration whose
effective offer delay reaches the effective market period makes construction
fail with SchedulerMisconfiguration, and any configuration satisfying the
constraint constructs an agent. -/
theorem market_service_agent_config_constraint (config : AgentConfig) :
    (config.market_period.getD 300 ≤ config.offer_delay.getD 120 →
      market_service_agent config =
        Except.error StartupError.schedulerMisconfiguration) ∧
    (config.offer_delay.getD 120 < config.market_period.getD 300 →
      ∃ a, market_service_agent config = Except.ok a) := by
  constructor
  · intro h
    simp [market_service_agent, Director.make, not_lt.mpr h]
    rfl
  · intro h
    refine ⟨⟨INITIAL_WAIT, ⟨[]⟩,
      ⟨config.market_period.getD 300, config.reservation_delay.getD 0,
        config.offer_delay.getD 120⟩, []⟩, ?_⟩
    simp [market_service_agent, Director.make, h]
    rfl

/-- Witness for C8 at a configuration with offer delay equal to the market
period. -/
theorem market_service_agent_config_constraint_witness :
    market_service_agent ⟨some 300, some 0, some 300⟩ =
      Except.error StartupError.schedulerMisconfiguration :=
  (market_service_agent_config_constraint ⟨some 300, some 0, some 300⟩).1
    (by decide)

end MarketService
